import Mathlib

/-!
Verification of the LibyaLink operator tooling: the doctor diagnostic
engine (app/cmd/doctor.go) and the UDP buffer tuner
(tuneUDPBuffer / formatBytes, shipped inline in docs/libya_tuning.md).

The Go code is shallowly embedded: the viper configuration source is a
record of the key lookups the program performs, the filesystem and the
network are explicit oracles, and zap log records are level / message /
field triples. Machine integers are Nat (all sizes involved are
non-negative); Go len(s) on strings is UTF-8 byte size.
-/

namespace LibyaLink

/-- Status glyph for a passing check (doctor.go: checkOK). -/
def checkOK : String := "✅"

/-- Status glyph for a failing check (doctor.go: checkFail). -/
def checkFail : String := "❌"

/-- Status glyph for a warning check (doctor.go: checkWarn). -/
def checkWarn : String := "⚠️"

/-- One diagnostic result (doctor.go: type checkResult). -/
structure CheckResult where
  name : String
  status : String
  message : String
deriving DecidableEq, Repr

/-- The viper configuration source, embedded as the record of lookups the
doctor actually performs. An unloaded configuration has `configFileUsed`
empty, both presence flags false and every value empty, matching viper
semantics when ReadInConfig failed and no defaults are registered. -/
structure Config where
  configFileUsed : String
  tlsSet : Bool
  acmeSet : Bool
  tlsCert : String
  tlsKey : String
  listen : String
  authType : String
  authPassword : String
  authUserpass : List (String × String)
  authHttpUrl : String
deriving DecidableEq, Repr

/-- Go strings.ToLower restricted to ASCII case mapping (Char.toLower);
for the ASCII keywords the auth check compares against, the Unicode and
ASCII lowerings agree. -/
def stringsToLower (s : String) : String :=
  String.mk (s.data.map Char.toLower)

/-- doctor.go: checkTLSACMEConflict. Skips (no result) when no
configuration file was loaded; otherwise reports the exclusive-or of the
tls and acme keys. -/
def checkTLSACMEConflict (cfg : Config) : List CheckResult :=
  if cfg.configFileUsed = "" then []
  else
    let hasTLS := cfg.tlsSet
    let hasACME := cfg.acmeSet
    if hasTLS && hasACME then
      [⟨"TLS/ACME", checkFail,
        "Both tls and acme are set. You must use one or the other, not both."⟩]
    else if !hasTLS && !hasACME then
      [⟨"TLS/ACME", checkFail,
        "Neither tls nor acme is configured. One is required for the server to start."⟩]
    else if hasTLS then
      [⟨"TLS/ACME", checkOK, "TLS mode: using local certificate files."⟩]
    else
      [⟨"TLS/ACME", checkOK, "ACME mode: using automatic certificate provisioning."⟩]

/-- Outcome of stat/open on a path, the filesystem oracle consumed by
checkFileReadable: the distinguishable conditions of doctor.go lines
211-260. `found size` is a stat-able, openable file of that size. -/
inductive FileStat where
  | notFound
  | permissionDenied
  | statErr (e : String)
  | openErr (e : String)
  | found (size : Nat)
deriving DecidableEq, Repr

/-- doctor.go: checkFileReadable. Classifies a path via the filesystem
oracle `fs` exactly in source order: stat not-found / permission / other
error, then open error, then empty file, else readable. -/
def checkFileReadable (fs : String → FileStat) (name path : String) : CheckResult :=
  match fs path with
  | FileStat.notFound =>
      ⟨name, checkFail, "File not found: " ++ path⟩
  | FileStat.permissionDenied =>
      ⟨name, checkFail, "Permission denied on " ++ path⟩
  | FileStat.statErr e =>
      ⟨name, checkFail, "Error accessing " ++ path ++ ": " ++ e⟩
  | FileStat.openErr e =>
      ⟨name, checkFail, "Cannot open " ++ path ++ ": " ++ e⟩
  | FileStat.found size =>
      if size = 0 then
        ⟨name, checkFail, "File is empty: " ++ path⟩
      else
        ⟨name, checkOK, "Readable (" ++ toString size ++ " bytes): " ++ path⟩

/-- doctor.go: checkTLSFiles. `fs` is the filesystem oracle; `loadPair`
models tls.LoadX509KeyPair, returning `some errText` on parse/mismatch
failure and `none` on success. NOTE (faithful to source): the pair-level
attempt is guarded only by both paths being non-empty (doctor.go line
191), not by the file-level checks having passed, although the comment
above that line reads "If both are readable". -/
def checkTLSFiles (cfg : Config) (fs : String → FileStat)
    (loadPair : String → String → Option String) : List CheckResult :=
  if cfg.tlsSet = false then []
  else
    let certPath := cfg.tlsCert
    let keyPath := cfg.tlsKey
    let certRes :=
      if certPath = "" then
        [(⟨"TLS Cert", checkFail, "tls.cert path is empty."⟩ : CheckResult)]
      else
        [checkFileReadable fs "TLS Cert" certPath]
    let keyRes :=
      if keyPath = "" then
        [(⟨"TLS Key", checkFail, "tls.key path is empty."⟩ : CheckResult)]
      else
        [checkFileReadable fs "TLS Key" keyPath]
    let pairRes :=
      if certPath ≠ "" ∧ keyPath ≠ "" then
        match loadPair certPath keyPath with
        | some e =>
            [(⟨"TLS Pair", checkFail,
               "Certificate/Key pair is invalid: " ++ e⟩ : CheckResult)]
        | none =>
            [(⟨"TLS Pair", checkOK,
               "Certificate and key pair loaded successfully."⟩ : CheckResult)]
      else []
    certRes ++ keyRes ++ pairRes

/-- Modelled from the spec: the default listen address constant
(doctor.go references `defaultListenAddr`, whose defining file is not
under src; the spec fixes no concrete value and no claim depends on it). -/
def defaultListenAddr : String := ":443"

/-- The listen address the port check uses: configured value, or the
default when the configured value is empty (doctor.go lines 263-266). -/
def effectiveListen (cfg : Config) : String :=
  if cfg.listen = "" then defaultListenAddr else cfg.listen

/-- Network environment oracle for the port check: address resolution
(net.ResolveUDPAddr) and whether binding a resolved address would be
denied by privilege rules. -/
structure PortEnv where
  resolve : String → Option String
  privileged : String → Bool

/-- The OS socket state the port check reads and writes: the multiset of
addresses currently bound, as a list. ListenUDP succeeds iff the address
is not already bound (and not privilege-denied), adding it; Close removes
it. -/
structure NetState where
  bound : List String
deriving DecidableEq, Repr

/-- doctor.go: checkPortAvailability, as a state transformer on the OS
socket state. On a successful bind the socket is acquired and then closed
before the result is returned (conn.Close(), line 306), which the model
renders as cons followed by erase. Bind failures are classified by the
oracle structurally (the source string-matches the error text; the model
exposes the same three buckets). -/
def checkPortAvailability (cfg : Config) (env : PortEnv) (st : NetState) :
    List CheckResult × NetState :=
  let listenAddr := effectiveListen cfg
  match env.resolve listenAddr with
  | none =>
      ([⟨"UDP Port", checkFail,
         "Invalid listen address " ++ listenAddr⟩], st)
  | some udpAddr =>
      if st.bound.contains udpAddr then
        ([⟨"UDP Port", checkFail,
           "Port " ++ listenAddr ++ " is already in use! Another process (Apache/Nginx/Hysteria?) is binding it."⟩], st)
      else if env.privileged udpAddr then
        ([⟨"UDP Port", checkFail,
           "Permission denied binding to " ++ listenAddr ++ ". Use a port > 1024 or run with elevated privileges."⟩], st)
      else
        let stAfterBind : NetState := ⟨udpAddr :: st.bound⟩
        let stAfterClose : NetState := ⟨stAfterBind.bound.erase udpAddr⟩
        ([⟨"UDP Port", checkOK,
           "UDP " ++ listenAddr ++ " is available."⟩], stAfterClose)

/-- doctor.go: checkAuthConfig. Branches on the declared auth type,
lower-cased; Go len(pw) is the UTF-8 byte size. -/
def checkAuthConfig (cfg : Config) : List CheckResult :=
  let authType := cfg.authType
  if authType = "" then
    [⟨"Auth", checkFail, "No auth.type configured. Server requires authentication."⟩]
  else
    let t := stringsToLower authType
    if t = "password" then
      let pw := cfg.authPassword
      if pw = "" then
        [⟨"Auth", checkFail, "auth.type is password but auth.password is empty."⟩]
      else if pw.utf8ByteSize < 8 then
        [⟨"Auth", checkWarn,
          "auth.password is very short (< 8 chars). Consider using a stronger password."⟩]
      else
        [⟨"Auth", checkOK, "Password authentication configured."⟩]
    else if t = "userpass" then
      let up := cfg.authUserpass
      if up.length = 0 then
        [⟨"Auth", checkFail, "auth.type is userpass but no user:password entries found."⟩]
      else
        [⟨"Auth", checkOK,
          "User/pass authentication configured (" ++ toString up.length ++ " users)."⟩]
    else if t = "http" ∨ t = "https" then
      let url := cfg.authHttpUrl
      if url = "" then
        [⟨"Auth", checkFail, "auth.type is http but auth.http.url is empty."⟩]
      else
        [⟨"Auth", checkOK, "HTTP authentication configured: " ++ url⟩]
    else
      [⟨"Auth", checkOK, "Authentication type: " ++ authType⟩]

/-- Replace only the auth.type lookup of a configuration. -/
def Config.withAuthType (cfg : Config) (t : String) : Config :=
  { cfg with authType := t }

/-- The counting loop of runDoctor (doctor.go lines 72-82): one pass over
the results, incrementing the FAIL counter on a FAIL status and the WARN
counter on a WARN status, as the result loop does. -/
def countLoop : List CheckResult → Nat × Nat → Nat × Nat
  | [], acc => acc
  | r :: rs, (f, w) =>
      let f1 := if r.status == checkFail then f + 1 else f
      let w1 := if r.status == checkWarn then w + 1 else w
      countLoop rs (f1, w1)

/-- FAIL and WARN counters at the end of the result loop of runDoctor. -/
def runDoctorCounts (results : List CheckResult) : Nat × Nat :=
  countLoop results (0, 0)

/-- The three verdict shapes of the summary block (doctor.go lines 87-93). -/
inductive Verdict where
  | allClear
  | degraded
  | broken
deriving DecidableEq, Repr

/-- Verdict selection of runDoctor: healthy when both counters are zero,
degraded when only warnings exist, broken otherwise. -/
def doctorVerdict (f w : Nat) : Verdict :=
  if f == 0 && w == 0 then Verdict.allClear
  else if f == 0 then Verdict.degraded
  else Verdict.broken

/-- Process exit outcome of a command run. -/
inductive ExitSignal where
  | success
  | failure
deriving DecidableEq, Repr

/-- Exit signal of the doctor process as a function of the produced
results. runDoctor (doctor.go lines 40-95) is registered through the cobra
Run field (not RunE), returns no error, never panics and never calls
os.Exit, so command execution always completes normally and the process
exits successfully whatever the results were. -/
def runDoctorExitSignal (_results : List CheckResult) : ExitSignal :=
  ExitSignal.success

/-- Desired UDP read buffer (8 MB), docs/libya_tuning.md source block. -/
def libyalinkDesiredReadBuffer : Nat := 8 * 1024 * 1024

/-- Desired UDP write buffer (8 MB). -/
def libyalinkDesiredWriteBuffer : Nat := 8 * 1024 * 1024

/-- formatBytes from the tuner source: integer division rendering into
MB / KB / B units. -/
def formatBytes (b : Nat) : String :=
  let kb := 1024
  let mb := 1024 * kb
  if b ≥ mb then toString (b / mb) ++ "MB"
  else if b ≥ kb then toString (b / kb) ++ "KB"
  else toString b ++ "B"

/-- Severity of a zap log record used by the tuner. -/
inductive LogLevel where
  | info
  | warn
deriving DecidableEq, Repr

/-- One structured zap field, with its value already rendered to text:
zap.Int k v becomes ⟨k, Nat.repr v⟩ and zap.Error e becomes ⟨"error", e⟩. -/
structure LogField where
  key : String
  value : String
deriving DecidableEq, Repr

/-- One emitted zap record: level, message text, structured fields. -/
structure LogLine where
  level : LogLevel
  msg : String
  fields : List LogField
deriving DecidableEq, Repr

/-- The full emitted line for a record, message first and each structured
field appended as key=value, as zap encoders render it. -/
def renderLogLine (l : LogLine) : String :=
  l.fields.foldl (fun acc f => acc ++ " " ++ f.key ++ "=" ++ f.value) l.msg

/-- Outcome of one SetReadBuffer/SetWriteBuffer call together with the
granted size the platform accessor reads back afterwards: `failed e` is
the set call erroring, `ok granted` is a successful set with `granted`
the value getSockOptRcvBuf/getSockOptSndBuf then reports (0 when
introspection itself failed). -/
inductive SetBufferOutcome where
  | failed (errMsg : String)
  | ok (granted : Nat)
deriving DecidableEq, Repr

/-- One direction of tuneUDPBuffer (docs/libya_tuning.md lines 299-346):
the log record produced for a set-buffer outcome. `dir` is "read" or
"write" as spliced into the format strings of the source. -/
def tuneBufferDirection (dir : String) (requested : Nat)
    (outcome : SetBufferOutcome) : LogLine :=
  match outcome with
  | SetBufferOutcome.failed e =>
      ⟨LogLevel.warn,
       "[LibyaLink] Failed to set UDP " ++ dir ++ " buffer",
       [⟨"requested_bytes", Nat.repr requested⟩, ⟨"error", e⟩]⟩
  | SetBufferOutcome.ok granted =>
      if granted < requested then
        ⟨LogLevel.warn,
         "[LibyaLink] Requested " ++ formatBytes requested ++ " " ++ dir ++
           " buffer -> OS granted " ++ formatBytes granted ++
           ". Warning: Run the tuning script to unlock full speed. See docs/libya_tuning.md",
         [⟨"requested_bytes", Nat.repr requested⟩,
          ⟨"granted_bytes", Nat.repr granted⟩]⟩
      else
        ⟨LogLevel.info,
         "[LibyaLink] UDP " ++ dir ++ " buffer: requested " ++
           formatBytes requested ++ " -> granted " ++ formatBytes granted ++
           ". Optimal!",
         [⟨"granted_bytes", Nat.repr granted⟩]⟩

/-- Socket-option calls the tuner can issue on the connection. -/
inductive SocketCall where
  | setReadBuffer (n : Nat)
  | setWriteBuffer (n : Nat)
  | getRcvBuf
  | getSndBuf
deriving DecidableEq, Repr

/-- Environment of one tuner invocation: what the two set calls (and the
subsequent introspection) would yield. -/
structure TuneEnv where
  readSet : SetBufferOutcome
  writeSet : SetBufferOutcome
deriving DecidableEq, Repr

/-- tuneUDPBuffer (docs/libya_tuning.md lines 292-347): given the
connection and logger (None models a nil pointer), returns the socket
calls issued and the log records emitted. The nil guard at the top
returns before any call or record. -/
def tuneUDPBuffer (conn : Option Unit) (log : Option Unit) (env : TuneEnv) :
    List SocketCall × List LogLine :=
  match conn, log with
  | some _, some _ =>
      let intro : LogLine :=
        ⟨LogLevel.info,
         "[LibyaLink] Tuning UDP socket buffers for Libyan network conditions...", []⟩
      let readStep :=
        match env.readSet with
        | SetBufferOutcome.failed e =>
            ([SocketCall.setReadBuffer libyalinkDesiredReadBuffer],
             tuneBufferDirection "read" libyalinkDesiredReadBuffer
               (SetBufferOutcome.failed e))
        | SetBufferOutcome.ok g =>
            ([SocketCall.setReadBuffer libyalinkDesiredReadBuffer,
              SocketCall.getRcvBuf],
             tuneBufferDirection "read" libyalinkDesiredReadBuffer
               (SetBufferOutcome.ok g))
      let writeStep :=
        match env.writeSet with
        | SetBufferOutcome.failed e =>
            ([SocketCall.setWriteBuffer libyalinkDesiredWriteBuffer],
             tuneBufferDirection "write" libyalinkDesiredWriteBuffer
               (SetBufferOutcome.failed e))
        | SetBufferOutcome.ok g =>
            ([SocketCall.setWriteBuffer libyalinkDesiredWriteBuffer,
              SocketCall.getSndBuf],
             tuneBufferDirection "write" libyalinkDesiredWriteBuffer
               (SetBufferOutcome.ok g))
      (readStep.1 ++ writeStep.1, [intro, readStep.2, writeStep.2])
  | _, _ => ([], [])

/-- Boolean list-prefix test over characters (structural, kernel-reducible). -/
def listPrefixOf : List Char → List Char → Bool
  | [], _ => true
  | _ :: _, [] => false
  | a :: as, b :: bs => a == b && listPrefixOf as bs

/-- Boolean list-infix test over characters. -/
def listInfixOf (pat : List Char) : List Char → Bool
  | [] => listPrefixOf pat []
  | b :: bs => listPrefixOf pat (b :: bs) || listInfixOf pat bs

/-- Substring test: does `s` contain `pat` as a contiguous substring. -/
def strHas (s pat : String) : Bool :=
  listInfixOf pat.data s.data

/-- A configuration state in which loading failed: no file path, no keys,
all values empty — the state every viper lookup reports when ReadInConfig
returned an error and nothing else populated the store. -/
def Config.NotLoaded (cfg : Config) : Prop :=
  cfg.configFileUsed = "" ∧ cfg.tlsSet = false ∧ cfg.acmeSet = false ∧
  cfg.tlsCert = "" ∧ cfg.tlsKey = "" ∧ cfg.listen = "" ∧
  cfg.authType = "" ∧ cfg.authPassword = "" ∧ cfg.authUserpass = [] ∧
  cfg.authHttpUrl = ""

instance (cfg : Config) : Decidable cfg.NotLoaded := by
  unfold Config.NotLoaded
  infer_instance

/-- The all-empty configuration: the concrete unloaded state. -/
def cfgUnloaded : Config :=
  ⟨"", false, false, "", "", "", "", "", [], ""⟩

/-- A loaded configuration used as a base point for concrete instances:
password auth, tls mode, explicit listen address. -/
def cfgBase : Config :=
  ⟨"/etc/libyalink/config.yaml", true, false,
   "/etc/libyalink/cert.pem", "/etc/libyalink/key.pem",
   ":8443", "password", "longenough1", [], ""⟩

/-- cfgBase with a five-character, ten-byte password (each ñ is two UTF-8
bytes): under 8 characters but not under 8 bytes. -/
def cfgMultibytePw : Config :=
  { cfgBase with authPassword := "ñññññ" }

/-- cfgBase pointed at certificate and key paths that do not exist. -/
def cfgMissingFiles : Config :=
  { cfgBase with tlsCert := "/missing/cert.pem", tlsKey := "/missing/key.pem" }

/-- Filesystem oracle on which every path fails stat with not-found. -/
def fsAllMissing : String → FileStat := fun _ => FileStat.notFound

/-- LoadX509KeyPair oracle failing the way Go does when the certificate
file is absent. -/
def loadPairMissing : String → String → Option String :=
  fun _ _ => some "open /missing/cert.pem: no such file or directory"

/-- Network oracle on which every address resolves to itself and no
address is privilege-restricted. -/
def envFreePort : PortEnv :=
  ⟨fun s => some s, fun _ => false⟩

/-- OS socket state with no address bound. -/
def stEmpty : NetState := ⟨[]⟩

/-
Theorems. Helper lemmas first, then one theorem per claim with its
counterexample / witness companions.
-/

/-- Helper: the result loop counts exactly the FAIL-status and WARN-status
entries, whatever the initial counter values. -/
theorem countLoop_eq : ∀ (rs : List CheckResult) (f w : Nat),
    countLoop rs (f, w) =
      (f + rs.countP (fun r => r.status == checkFail),
       w + rs.countP (fun r => r.status == checkWarn))
  | [], f, w => by simp [countLoop]
  | r :: rs, f, w => by
      cases hf : r.status == checkFail <;> cases hw : r.status == checkWarn <;>
        simp [countLoop, hf, hw, List.countP_cons, countLoop_eq rs] <;> omega

/-- Helper: the verdict is all-clear exactly when both counters are zero. -/
theorem doctorVerdict_allClear (f w : Nat) :
    doctorVerdict f w = Verdict.allClear ↔ f = 0 ∧ w = 0 := by
  rcases f with _ | f <;> rcases w with _ | w <;> simp [doctorVerdict]

/-- Helper: the verdict is degraded exactly when there are warnings but no
failures. -/
theorem doctorVerdict_degraded (f w : Nat) :
    doctorVerdict f w = Verdict.degraded ↔ f = 0 ∧ 1 ≤ w := by
  rcases f with _ | f <;> rcases w with _ | w <;> simp [doctorVerdict]

/-- Helper: the verdict is broken exactly when there is at least one
failure. -/
theorem doctorVerdict_broken (f w : Nat) :
    doctorVerdict f w = Verdict.broken ↔ 1 ≤ f := by
  rcases f with _ | f <;> rcases w with _ | w <;> simp [doctorVerdict]

/-- C2: for every result sequence, the FAIL and WARN counters of the
runDoctor loop equal the exact number of results whose status is FAIL
respectively WARN, and the verdict is all-clear iff both counts are zero,
degraded iff there are warnings but no failures, and broken iff at least
one failure exists. -/
theorem doctor_counts_exact_and_verdict (results : List CheckResult) :
    runDoctorCounts results =
      (results.countP (fun r => r.status == checkFail),
       results.countP (fun r => r.status == checkWarn)) ∧
    (doctorVerdict (runDoctorCounts results).1 (runDoctorCounts results).2 =
        Verdict.allClear ↔
      results.countP (fun r => r.status == checkFail) = 0 ∧
      results.countP (fun r => r.status == checkWarn) = 0) ∧
    (doctorVerdict (runDoctorCounts results).1 (runDoctorCounts results).2 =
        Verdict.degraded ↔
      results.countP (fun r => r.status == checkFail) = 0 ∧
      1 ≤ results.countP (fun r => r.status == checkWarn)) ∧
    (doctorVerdict (runDoctorCounts results).1 (runDoctorCounts results).2 =
        Verdict.broken ↔
      1 ≤ results.countP (fun r => r.status == checkFail)) := by
  have h : runDoctorCounts results =
      (results.countP (fun r => r.status == checkFail),
       results.countP (fun r => r.status == checkWarn)) := by
    simpa [runDoctorCounts] using countLoop_eq results 0 0
  refine ⟨h, ?_, ?_, ?_⟩ <;> rw [h] <;>
    simp [doctorVerdict_allClear, doctorVerdict_degraded, doctorVerdict_broken]

/-- C1 counterexample: a run that produced a FAIL result still gets the
success exit signal, refuting that the process signals failure (non-zero
exit) when a FAIL exists. -/
theorem doctor_exit_ignores_fail_cex :
    1 ≤ (runDoctorCounts
      [⟨"Auth", checkFail,
        "No auth.type configured. Server requires authentication."⟩]).1 ∧
    runDoctorExitSignal
      [⟨"Auth", checkFail,
        "No auth.type configured. Server requires authentication."⟩] =
      ExitSignal.success := by
  constructor
  · decide
  · rfl

/-- C1 amended: the doctor process always signals success on exit,
whatever results were produced (so WARNs indeed never change the exit
status); the presence of a FAIL is signalled only through the printed
verdict, which is broken exactly when some FAIL exists. -/
theorem doctor_exit_always_success (results : List CheckResult) :
    runDoctorExitSignal results = ExitSignal.success ∧
    (doctorVerdict (runDoctorCounts results).1 (runDoctorCounts results).2 =
        Verdict.broken ↔ 1 ≤ (runDoctorCounts results).1) :=
  ⟨rfl, doctorVerdict_broken _ _⟩

/-- C6: with tls configured and both certificate and key paths set but
pointing at files whose stat fails with not-found — so both file-level
checks FAIL — the pair-level check still runs and produces a third, TLS
Pair result, because the source gates the pair attempt on the paths being
non-empty rather than on the file-level checks having passed. -/
theorem tls_pair_runs_despite_file_fail :
    checkTLSFiles cfgMissingFiles fsAllMissing loadPairMissing =
      [⟨"TLS Cert", checkFail, "File not found: /missing/cert.pem"⟩,
       ⟨"TLS Key", checkFail, "File not found: /missing/key.pem"⟩,
       ⟨"TLS Pair", checkFail,
        "Certificate/Key pair is invalid: open /missing/cert.pem: no such file or directory"⟩] := by
  decide

/-- C10: invoked with a nil connection or a nil logger, the tuner issues
no socket-option call and emits no log record. -/
theorem tuner_nil_guard (conn log : Option Unit) (env : TuneEnv) :
    tuneUDPBuffer none log env = ([], []) ∧
    tuneUDPBuffer conn none env = ([], []) := by
  constructor
  · cases log <;> rfl
  · cases conn <;> rfl

/-- C3 counterexample: for requested 8388608 and granted 212992 the
outcome is a warning, but neither value is reproduced verbatim in the
message text — the message renders them through formatBytes as 8MB and
208KB; the verbatim integers appear only in the structured fields. -/
theorem tuner_verbatim_msg_cex :
    (tuneBufferDirection "read" 8388608 (SetBufferOutcome.ok 212992)).level =
      LogLevel.warn ∧
    strHas (tuneBufferDirection "read" 8388608
      (SetBufferOutcome.ok 212992)).msg "8388608" = false ∧
    strHas (tuneBufferDirection "read" 8388608
      (SetBufferOutcome.ok 212992)).msg "212992" = false := by
  decide

/-- C3 amended: granted at least requested is the informational optimal
record; granted below requested is a warning whose message text names both
values in formatBytes units and whose structured fields carry both values
verbatim (for requested 8388608 and granted 212992: 8MB and 208KB in the
text, 8388608 and 212992 in the rendered record); a failed set call is a
warning naming the error with no granted-value field or comparison. -/
theorem tuner_classification (dir : String) (requested granted : Nat)
    (errMsg : String) :
    (requested ≤ granted →
      tuneBufferDirection dir requested (SetBufferOutcome.ok granted) =
        ⟨LogLevel.info,
         "[LibyaLink] UDP " ++ dir ++ " buffer: requested " ++
           formatBytes requested ++ " -> granted " ++ formatBytes granted ++
           ". Optimal!",
         [⟨"granted_bytes", Nat.repr granted⟩]⟩) ∧
    (granted < requested →
      tuneBufferDirection dir requested (SetBufferOutcome.ok granted) =
        ⟨LogLevel.warn,
         "[LibyaLink] Requested " ++ formatBytes requested ++ " " ++ dir ++
           " buffer -> OS granted " ++ formatBytes granted ++
           ". Warning: Run the tuning script to unlock full speed. See docs/libya_tuning.md",
         [⟨"requested_bytes", Nat.repr requested⟩,
          ⟨"granted_bytes", Nat.repr granted⟩]⟩) ∧
    tuneBufferDirection dir requested (SetBufferOutcome.failed errMsg) =
      ⟨LogLevel.warn,
       "[LibyaLink] Failed to set UDP " ++ dir ++ " buffer",
       [⟨"requested_bytes", Nat.repr requested⟩, ⟨"error", errMsg⟩]⟩ ∧
    strHas (tuneBufferDirection "read" 8388608
      (SetBufferOutcome.ok 212992)).msg "8MB" = true ∧
    strHas (tuneBufferDirection "read" 8388608
      (SetBufferOutcome.ok 212992)).msg "208KB" = true ∧
    strHas (renderLogLine (tuneBufferDirection "read" 8388608
      (SetBufferOutcome.ok 212992))) "8388608" = true ∧
    strHas (renderLogLine (tuneBufferDirection "read" 8388608
      (SetBufferOutcome.ok 212992))) "212992" = true := by
  refine ⟨?_, ?_, rfl, by decide, by decide, by decide, by decide⟩
  · intro h
    simp [tuneBufferDirection, Nat.not_lt.mpr h]
  · intro h
    simp [tuneBufferDirection, h]

/-- C3 witness: the shortfall case at requested 8388608, granted 212992,
instantiating the classification theorem. -/
theorem tuner_classification_witness :
    tuneBufferDirection "read" 8388608 (SetBufferOutcome.ok 212992) =
      ⟨LogLevel.warn,
       "[LibyaLink] Requested 8MB read buffer -> OS granted 208KB. Warning: Run the tuning script to unlock full speed. See docs/libya_tuning.md",
       [⟨"requested_bytes", "8388608"⟩, ⟨"granted_bytes", "212992"⟩]⟩ :=
  (((tuner_classification "read" 8388608 212992 "e").2.1) (by decide)).trans
    (by decide)

/-- C4: with a loaded configuration the TLS/ACME exclusivity check yields
exactly one result — both keys present FAIL, neither present FAIL, exactly
one present OK naming the active mode — and yields no result when no
configuration was loaded. -/
theorem tls_acme_exclusivity (cfg : Config) :
    (cfg.configFileUsed = "" → checkTLSACMEConflict cfg = []) ∧
    (cfg.configFileUsed ≠ "" →
      (cfg.tlsSet = true → cfg.acmeSet = true →
        checkTLSACMEConflict cfg =
          [⟨"TLS/ACME", checkFail,
            "Both tls and acme are set. You must use one or the other, not both."⟩]) ∧
      (cfg.tlsSet = false → cfg.acmeSet = false →
        checkTLSACMEConflict cfg =
          [⟨"TLS/ACME", checkFail,
            "Neither tls nor acme is configured. One is required for the server to start."⟩]) ∧
      (cfg.tlsSet = true → cfg.acmeSet = false →
        checkTLSACMEConflict cfg =
          [⟨"TLS/ACME", checkOK, "TLS mode: using local certificate files."⟩]) ∧
      (cfg.tlsSet = false → cfg.acmeSet = true →
        checkTLSACMEConflict cfg =
          [⟨"TLS/ACME", checkOK,
            "ACME mode: using automatic certificate provisioning."⟩])) := by
  refine ⟨fun h => by simp [checkTLSACMEConflict, h], fun h => ⟨?_, ?_, ?_, ?_⟩⟩ <;>
    intro h1 h2 <;> simp [checkTLSACMEConflict, h, h1, h2]

/-- C4 witness: cfgBase is loaded with only tls present, giving the OK
result that names TLS mode. -/
theorem tls_acme_exclusivity_witness :
    checkTLSACMEConflict cfgBase =
      [⟨"TLS/ACME", checkOK, "TLS mode: using local certificate files."⟩] :=
  ((tls_acme_exclusivity cfgBase).2 (by decide)).2.2.1 rfl rfl

/-- C5 counterexample: a password of five characters (ten UTF-8 bytes) is
non-empty and under 8 characters, yet the check reports OK, not WARN —
the source compares Go len, i.e. the byte length, not the character
count. -/
theorem auth_password_bytes_cex :
    cfgMultibytePw.authType = "password" ∧
    cfgMultibytePw.authPassword ≠ "" ∧
    cfgMultibytePw.authPassword.length < 8 ∧
    checkAuthConfig cfgMultibytePw =
      [⟨"Auth", checkOK, "Password authentication configured."⟩] := by
  decide

/-- C5 amended: the auth check maps missing type to FAIL; type password
with empty password to FAIL, with a non-empty password under 8 UTF-8
bytes (Go len, equal to characters for ASCII) to WARN and with 8 or more
bytes to OK; type userpass with an empty mapping to FAIL; type http or
https with an empty URL to FAIL; and any unknown type to OK. -/
theorem auth_check_mapping (cfg : Config) :
    (cfg.authType = "" →
      checkAuthConfig cfg =
        [⟨"Auth", checkFail,
          "No auth.type configured. Server requires authentication."⟩]) ∧
    (stringsToLower cfg.authType = "password" →
      (cfg.authPassword = "" →
        checkAuthConfig cfg =
          [⟨"Auth", checkFail,
            "auth.type is password but auth.password is empty."⟩]) ∧
      (cfg.authPassword ≠ "" → cfg.authPassword.utf8ByteSize < 8 →
        checkAuthConfig cfg =
          [⟨"Auth", checkWarn,
            "auth.password is very short (< 8 chars). Consider using a stronger password."⟩]) ∧
      (8 ≤ cfg.authPassword.utf8ByteSize →
        checkAuthConfig cfg =
          [⟨"Auth", checkOK, "Password authentication configured."⟩])) ∧
    (stringsToLower cfg.authType = "userpass" → cfg.authUserpass = [] →
      checkAuthConfig cfg =
        [⟨"Auth", checkFail,
          "auth.type is userpass but no user:password entries found."⟩]) ∧
    ((stringsToLower cfg.authType = "http" ∨
        stringsToLower cfg.authType = "https") →
      cfg.authHttpUrl = "" →
      checkAuthConfig cfg =
        [⟨"Auth", checkFail, "auth.type is http but auth.http.url is empty."⟩]) ∧
    (cfg.authType ≠ "" → stringsToLower cfg.authType ≠ "password" →
      stringsToLower cfg.authType ≠ "userpass" →
      stringsToLower cfg.authType ≠ "http" →
      stringsToLower cfg.authType ≠ "https" →
      checkAuthConfig cfg =
        [⟨"Auth", checkOK, "Authentication type: " ++ cfg.authType⟩]) := by
  refine ⟨fun h => by simp [checkAuthConfig, h], ?_, ?_, ?_, ?_⟩
  · intro h
    have hty : cfg.authType ≠ "" := by
      intro h0
      rw [h0] at h
      exact absurd h (by decide)
    refine ⟨fun hpw => by simp [checkAuthConfig, hty, h, hpw], ?_, ?_⟩
    · intro hpw h8
      simp [checkAuthConfig, hty, h, hpw, h8]
    · intro h8
      have hpw : cfg.authPassword ≠ "" := by
        intro h0
        rw [h0] at h8
        exact absurd h8 (by decide)
      simp [checkAuthConfig, hty, h, hpw, Nat.not_lt.mpr h8]
  · intro h hup
    have hty : cfg.authType ≠ "" := by
      intro h0
      rw [h0] at h
      exact absurd h (by decide)
    simp [checkAuthConfig, hty, h, hup]
  · intro h hurl
    have hty : cfg.authType ≠ "" := by
      rcases h with h | h <;>
        · intro h0
          rw [h0] at h
          exact absurd h (by decide)
    rcases h with h | h <;> simp [checkAuthConfig, hty, h, hurl]
  · intro hty h1 h2 h3 h4
    simp [checkAuthConfig, hty, h1, h2, h3, h4]

/-- C5 witness: cfgBase declares type password with an 11-byte password,
giving the OK outcome via the mapping theorem. -/
theorem auth_check_mapping_witness :
    checkAuthConfig cfgBase =
      [⟨"Auth", checkOK, "Password authentication configured."⟩] :=
  ((auth_check_mapping cfgBase).2.1 (by decide)).2.2 (by decide)

/-- C7 counterexample: with no configuration loaded, the auth check does
not return no result — it reports a FAIL of its own for the missing auth
type. -/
theorem config_unloaded_auth_cex :
    cfgUnloaded.NotLoaded ∧
    checkAuthConfig cfgUnloaded =
      [⟨"Auth", checkFail,
        "No auth.type configured. Server requires authentication."⟩] ∧
    checkAuthConfig cfgUnloaded ≠ ([] : List CheckResult) := by
  decide

/-- C7 amended: when the configuration could not be loaded, the TLS/ACME
and TLS-file checks return no result, the port check falls back to the
default listen address, and the auth check runs without crashing but
reports a FAIL for the missing auth type rather than returning no
result. -/
theorem config_unloaded_degrade (cfg : Config) (h : cfg.NotLoaded)
    (fs : String → FileStat) (loadPair : String → String → Option String) :
    checkTLSACMEConflict cfg = [] ∧
    checkTLSFiles cfg fs loadPair = [] ∧
    effectiveListen cfg = defaultListenAddr ∧
    checkAuthConfig cfg =
      [⟨"Auth", checkFail,
        "No auth.type configured. Server requires authentication."⟩] := by
  obtain ⟨h1, h2, h3, h4, h5, h6, h7, h8, h9, h10⟩ := h
  exact ⟨by simp [checkTLSACMEConflict, h1], by simp [checkTLSFiles, h2],
         by simp [effectiveListen, h6], by simp [checkAuthConfig, h7]⟩

/-- C7 witness: the degradation theorem instantiated at the concrete
unloaded configuration. -/
theorem config_unloaded_degrade_witness :
    checkTLSACMEConflict cfgUnloaded = [] ∧
    checkTLSFiles cfgUnloaded fsAllMissing loadPairMissing = [] ∧
    effectiveListen cfgUnloaded = defaultListenAddr ∧
    checkAuthConfig cfgUnloaded =
      [⟨"Auth", checkFail,
        "No auth.type configured. Server requires authentication."⟩] :=
  config_unloaded_degrade cfgUnloaded (by decide) fsAllMissing loadPairMissing

/-- C8: when the bind succeeds (address resolves, is not bound, is not
privilege-denied), the port check reports OK, leaves the OS socket state
exactly as it found it (the socket is closed before returning), and
therefore running the check again immediately afterwards gives the same
OK result. -/
theorem port_check_releases_socket (cfg : Config) (env : PortEnv)
    (st : NetState) (addr : String)
    (hres : env.resolve (effectiveListen cfg) = some addr)
    (hfree : st.bound.contains addr = false)
    (hpriv : env.privileged addr = false) :
    (checkPortAvailability cfg env st).1 =
      [⟨"UDP Port", checkOK, "UDP " ++ effectiveListen cfg ++ " is available."⟩] ∧
    (checkPortAvailability cfg env st).2 = st ∧
    checkPortAvailability cfg env (checkPortAvailability cfg env st).2 =
      checkPortAvailability cfg env st := by
  have hmain : checkPortAvailability cfg env st =
      ([⟨"UDP Port", checkOK, "UDP " ++ effectiveListen cfg ++ " is available."⟩],
       st) := by
    have hfree2 : addr ∉ st.bound := by simpa using hfree
    simp only [checkPortAvailability]
    rw [hres]
    simp [hfree2, hpriv, List.erase_cons_head]
  have h2 : (checkPortAvailability cfg env st).2 = st := by rw [hmain]
  exact ⟨by rw [hmain], h2, by rw [h2]⟩

/-- C8 witness: binding the concrete free address :8443 twice through the
release theorem. -/
theorem port_check_releases_socket_witness :
    (checkPortAvailability cfgBase envFreePort stEmpty).1 =
      [⟨"UDP Port", checkOK,
        "UDP " ++ effectiveListen cfgBase ++ " is available."⟩] ∧
    (checkPortAvailability cfgBase envFreePort stEmpty).2 = stEmpty ∧
    checkPortAvailability cfgBase envFreePort
        (checkPortAvailability cfgBase envFreePort stEmpty).2 =
      checkPortAvailability cfgBase envFreePort stEmpty :=
  port_check_releases_socket cfgBase envFreePort stEmpty ":8443"
    (by decide) (by decide) (by decide)

/-- C9: the auth check classifies a type string through its lower-cased
form — any capitalization variant of password, userpass, http or https is
validated exactly as the lowercase form. -/
theorem auth_check_case_insensitive (cfg : Config) (t : String)
    (h : stringsToLower t = "password" ∨ stringsToLower t = "userpass" ∨
         stringsToLower t = "http" ∨ stringsToLower t = "https") :
    checkAuthConfig (cfg.withAuthType t) =
      checkAuthConfig (cfg.withAuthType (stringsToLower t)) := by
  have hne : t ≠ "" := by
    intro h0
    rw [h0] at h
    rcases h with h | h | h | h <;> exact absurd h (by decide)
  rcases h with h | h | h | h <;> rw [h] <;>
    simp [checkAuthConfig, Config.withAuthType, hne, h,
      (by decide : stringsToLower "password" = "password"),
      (by decide : stringsToLower "userpass" = "userpass"),
      (by decide : stringsToLower "http" = "http"),
      (by decide : stringsToLower "https" = "https")]

/-- C9 witness: the all-caps variant PASSWORD is validated exactly as
password. -/
theorem auth_check_case_insensitive_witness :
    checkAuthConfig (cfgBase.withAuthType "PASSWORD") =
      checkAuthConfig (cfgBase.withAuthType (stringsToLower "PASSWORD")) :=
  auth_check_case_insensitive cfgBase "PASSWORD" (Or.inl (by decide))

end LibyaLink
